import Mathlib

/-!
Verification of the vapor-compression refrigeration cycle solver
(`simular_refrigerador` in `prueba.py` of SrClicks/simulador-refrigeracion).

The solver is a straight-line computation over a refrigerant property
oracle (CoolProp's `PropsSI`, specialized to R134a).  We embed the oracle
as a structure of pure query functions, one per (output, input-pair)
shape actually used by the source, and the solver as a Lean function over
exact rationals.  Python float division raises `ZeroDivisionError` when
the denominator is zero, so the one division (`COP = Q_evap /
Trabajo_necesario`) is modelled by returning `Except.error` exactly when
the compressor work is zero; every other step of the source is total.
-/

namespace Prueba

/-- The refrigerant property oracle: `CP.PropsSI` specialized to the fixed
refrigerant string `R134a`.  One field per query shape used by the source:
`X_YZ cp a b` stands for `CP.PropsSI("X", "Y", a, "Z", b, "R134a")`. -/
structure PropsOracle where
  H_TQ : ℚ → ℚ → ℚ
  S_TQ : ℚ → ℚ → ℚ
  P_TQ : ℚ → ℚ → ℚ
  H_PS : ℚ → ℚ → ℚ
  H_PQ : ℚ → ℚ → ℚ
  T_PQ : ℚ → ℚ → ℚ
  S_PQ : ℚ → ℚ → ℚ
  Q_PH : ℚ → ℚ → ℚ
  S_PH : ℚ → ℚ → ℚ
  T_HP : ℚ → ℚ → ℚ

/-- `Q_(t, "degC").to("kelvin")`: Celsius to Kelvin conversion done by pint. -/
def kelvin (t_C : ℚ) : ℚ := t_C + 273.15

/-- `Delta_T_cond = Q_(15, "delta_degC")` (line 17): fixed condenser
approach delta. -/
def Delta_T_cond : ℚ := 15

/-- Line 21: `h1 = CP.PropsSI("H", "T", T_interior, "Q", 1, refrigerante)`. -/
def h1 (cp : PropsOracle) (T_interior_C : ℚ) : ℚ :=
  cp.H_TQ (kelvin T_interior_C) 1

/-- Line 22: `s1 = CP.PropsSI("S", "T", T_interior, "Q", 1, refrigerante)`. -/
def s1 (cp : PropsOracle) (T_interior_C : ℚ) : ℚ :=
  cp.S_TQ (kelvin T_interior_C) 1

/-- Line 25: `T_condensacion = T_ambiente + Delta_T_cond`. -/
def T_condensacion (T_ambiente_C : ℚ) : ℚ :=
  kelvin T_ambiente_C + Delta_T_cond

/-- Line 26: `P_condensacion = CP.PropsSI("P", "T", T_condensacion, "Q", 0, ...)`. -/
def P_condensacion (cp : PropsOracle) (T_ambiente_C : ℚ) : ℚ :=
  cp.P_TQ (T_condensacion T_ambiente_C) 0

/-- Line 28: `s2 = s1`. -/
def s2 (cp : PropsOracle) (T_interior_C : ℚ) : ℚ := s1 cp T_interior_C

/-- Line 29: `P2 = P_condensacion`. -/
def P2 (cp : PropsOracle) (T_ambiente_C : ℚ) : ℚ := P_condensacion cp T_ambiente_C

/-- Line 30: `h2 = CP.PropsSI("H", "P", P2, "S", s2, refrigerante)`. -/
def h2 (cp : PropsOracle) (T_ambiente_C T_interior_C : ℚ) : ℚ :=
  cp.H_PS (P2 cp T_ambiente_C) (s2 cp T_interior_C)

/-- Line 31: `Trabajo_necesario = Flujo_masico * (h2 - h1)` (in W). -/
def Trabajo_necesario (cp : PropsOracle) (T_ambiente_C T_interior_C m : ℚ) : ℚ :=
  m * (h2 cp T_ambiente_C T_interior_C - h1 cp T_interior_C)

/-- Line 34: `P3 = P2`. -/
def P3 (cp : PropsOracle) (T_ambiente_C : ℚ) : ℚ := P2 cp T_ambiente_C

/-- Line 35: `h3 = CP.PropsSI("H", "P", P3, "Q", 0, refrigerante)`. -/
def h3 (cp : PropsOracle) (T_ambiente_C : ℚ) : ℚ :=
  cp.H_PQ (P3 cp T_ambiente_C) 0

/-- Line 36: `T3 = CP.PropsSI("T", "P", P3, "Q", 0, refrigerante)`. -/
def T3 (cp : PropsOracle) (T_ambiente_C : ℚ) : ℚ :=
  cp.T_PQ (P3 cp T_ambiente_C) 0

/-- Line 39: `h4 = h3`. -/
def h4 (cp : PropsOracle) (T_ambiente_C : ℚ) : ℚ := h3 cp T_ambiente_C

/-- Line 40: `P4 = CP.PropsSI("P", "T", T_interior, "Q", 1, refrigerante)`. -/
def P4 (cp : PropsOracle) (T_interior_C : ℚ) : ℚ :=
  cp.P_TQ (kelvin T_interior_C) 1

/-- Line 41: `x4 = CP.PropsSI("Q", "P", P4, "H", h4, refrigerante)`. -/
def x4 (cp : PropsOracle) (T_ambiente_C T_interior_C : ℚ) : ℚ :=
  cp.Q_PH (P4 cp T_interior_C) (h4 cp T_ambiente_C)

/-- Line 44: `Q_evap = Flujo_masico * (h1 - h4)` (in W). -/
def Q_evap (cp : PropsOracle) (T_ambiente_C T_interior_C m : ℚ) : ℚ :=
  m * (h1 cp T_interior_C - h4 cp T_ambiente_C)

/-- Line 47: `COP = Q_evap / Trabajo_necesario` (value in the non-raising case). -/
def COP (cp : PropsOracle) (T_ambiente_C T_interior_C m : ℚ) : ℚ :=
  Q_evap cp T_ambiente_C T_interior_C m / Trabajo_necesario cp T_ambiente_C T_interior_C m

/-- Lines 57 and 69: `CP.PropsSI('T','H',h2,'P',P2,refrigerante)`, the
re-derived discharge temperature. -/
def T2_real (cp : PropsOracle) (T_ambiente_C T_interior_C : ℚ) : ℚ :=
  cp.T_HP (h2 cp T_ambiente_C T_interior_C) (P2 cp T_ambiente_C)

/-- One entry of `resultados["states"]`: pressure (Pa), temperature (K),
specific enthalpy (J/kg), specific entropy (J/kg/K), location label. -/
structure StatePoint where
  P : ℚ
  T : ℚ
  h : ℚ
  s : ℚ
  desc : String
deriving DecidableEq

/-- `resultados["scalar"]` (lines 52-59). -/
structure ScalarMetrics where
  Trabajo_Compresor_kW : ℚ
  Calor_Extraido_kW : ℚ
  COP : ℚ
  Calidad_Evap : ℚ
  Temp_Descarga_C : ℚ
  Flujo_Masico_kg_s : ℚ
deriving DecidableEq

/-- The dictionary returned by `simular_refrigerador` (lines 51-66). -/
structure Resultados where
  scalar : ScalarMetrics
  state1 : StatePoint
  state2 : StatePoint
  state3 : StatePoint
  state4 : StatePoint
deriving DecidableEq

/-- Line 61: state 1 uses `P4` for its pressure and `T_interior` (K) for its
temperature. -/
def state1 (cp : PropsOracle) (T_interior_C : ℚ) : StatePoint :=
  ⟨P4 cp T_interior_C, kelvin T_interior_C, h1 cp T_interior_C, s1 cp T_interior_C,
    "Entrada Compresor"⟩

/-- Line 62, temperature overwritten at line 70 with `T2_real`, which is the
value the returned dictionary carries. -/
def state2 (cp : PropsOracle) (T_ambiente_C T_interior_C : ℚ) : StatePoint :=
  ⟨P2 cp T_ambiente_C, T2_real cp T_ambiente_C T_interior_C,
    h2 cp T_ambiente_C T_interior_C, s2 cp T_interior_C, "Entrada Condensador"⟩

/-- Line 63: state 3, entropy from a fresh `("S","P",P3,"Q",0)` query. -/
def state3 (cp : PropsOracle) (T_ambiente_C : ℚ) : StatePoint :=
  ⟨P3 cp T_ambiente_C, T3 cp T_ambiente_C, h3 cp T_ambiente_C,
    cp.S_PQ (P3 cp T_ambiente_C) 0, "Salida Condensador"⟩

/-- Line 64: state 4 reuses `P4` and `T_interior` (K); entropy from a fresh
`("S","P",P4,"H",h4)` query. -/
def state4 (cp : PropsOracle) (T_ambiente_C T_interior_C : ℚ) : StatePoint :=
  ⟨P4 cp T_interior_C, kelvin T_interior_C, h4 cp T_ambiente_C,
    cp.S_PH (P4 cp T_interior_C) (h4 cp T_ambiente_C), "Entrada Evaporador"⟩

/-- Lines 52-59: the scalar block.  `.to('kW')` divides a W magnitude by
1000; `Temp_Descarga_C` subtracts 273.15 from the `('T','H',h2,'P',P2)`
oracle answer. -/
def scalars (cp : PropsOracle) (T_ambiente_C T_interior_C m : ℚ) : ScalarMetrics :=
  ⟨Trabajo_necesario cp T_ambiente_C T_interior_C m / 1000,
    Q_evap cp T_ambiente_C T_interior_C m / 1000,
    COP cp T_ambiente_C T_interior_C m,
    x4 cp T_ambiente_C T_interior_C,
    T2_real cp T_ambiente_C T_interior_C - 273.15,
    m⟩

/-- The full `resultados` dictionary as returned (after the line-70
overwrite of state 2's temperature). -/
def buildResultados (cp : PropsOracle) (T_ambiente_C T_interior_C m : ℚ) : Resultados :=
  ⟨scalars cp T_ambiente_C T_interior_C m,
    state1 cp T_interior_C,
    state2 cp T_ambiente_C T_interior_C,
    state3 cp T_ambiente_C,
    state4 cp T_ambiente_C T_interior_C⟩

/-- `simular_refrigerador` (lines 7-72).  All oracle queries are total here
(the oracle is abstract; an oracle lookup failure is outside the model), so
the only failure of the source is the float division at line 47, which in
Python raises `ZeroDivisionError` exactly when `Trabajo_necesario` is zero. -/
def simular_refrigerador (cp : PropsOracle) (T_ambiente_C T_interior_C m : ℚ) :
    Except String Resultados :=
  if Trabajo_necesario cp T_ambiente_C T_interior_C m = 0 then
    Except.error "ZeroDivisionError: float division by zero"
  else
    Except.ok (buildResultados cp T_ambiente_C T_interior_C m)

/-- Inversion: a successful solve is exactly a nonzero compressor work
together with the assembled result dictionary. -/
theorem simular_ok_iff (cp : PropsOracle) (Ta Ti m : ℚ) (r : Resultados) :
    simular_refrigerador cp Ta Ti m = Except.ok r ↔
      Trabajo_necesario cp Ta Ti m ≠ 0 ∧ r = buildResultados cp Ta Ti m := by
  unfold simular_refrigerador
  split <;> simp_all [eq_comm]

/-- A concrete oracle used to witness the hypotheses of the claims: all
answers are simple rationals, chosen so that the compressor work at the
test point is positive and nonzero. -/
def testOracle : PropsOracle :=
  ⟨fun _ _ => 400000, fun _ _ => 1720, fun t _ => 1000 * t, fun _ _ => 430000,
    fun _ _ => 250000, fun _ _ => 313, fun _ _ => 1190, fun _ _ => 1/4,
    fun _ _ => 1300, fun _ _ => 330⟩

/-- A concrete oracle for which isentropic "compression" lowers the
enthalpy, making the compressor work negative at the test point. -/
def negOracle : PropsOracle :=
  ⟨fun _ _ => 400000, fun _ _ => 1720, fun t _ => 1000 * t, fun _ _ => 380000,
    fun _ _ => 250000, fun _ _ => 313, fun _ _ => 1190, fun _ _ => 1/4,
    fun _ _ => 1300, fun _ _ => 330⟩

theorem testOracle_work :
    Trabajo_necesario testOracle 25 4 (1/10) = 3000 := by
  norm_num [Trabajo_necesario, h2, h1, s2, s1, P2, P_condensacion, T_condensacion,
    Delta_T_cond, kelvin, testOracle]

theorem testOracle_ok :
    simular_refrigerador testOracle 25 4 (1/10) =
      Except.ok (buildResultados testOracle 25 4 (1/10)) :=
  (simular_ok_iff _ _ _ _ _).mpr ⟨by rw [testOracle_work]; norm_num, rfl⟩

/-- C1: for every successful solve, the four returned StatePoints satisfy
P1 = P4, P2 = P3, s2 = s1 and h4 = h3. -/
theorem C1_cycle_invariants (cp : PropsOracle) (Ta Ti m : ℚ) (r : Resultados)
    (hok : simular_refrigerador cp Ta Ti m = Except.ok r) :
    r.state1.P = r.state4.P ∧ r.state2.P = r.state3.P ∧
      r.state2.s = r.state1.s ∧ r.state4.h = r.state3.h := by
  obtain ⟨-, rfl⟩ := (simular_ok_iff cp Ta Ti m r).mp hok
  exact ⟨rfl, rfl, rfl, rfl⟩

theorem negOracle_work :
    Trabajo_necesario negOracle 25 4 (1/10) = -2000 := by
  norm_num [Trabajo_necesario, h2, h1, s2, s1, P2, P_condensacion, T_condensacion,
    Delta_T_cond, kelvin, negOracle]

theorem testOracle_ok_double :
    simular_refrigerador testOracle 25 4 (2 * (1/10)) =
      Except.ok (buildResultados testOracle 25 4 (2 * (1/10))) := by
  refine (simular_ok_iff _ _ _ _ _).mpr ⟨?_, rfl⟩
  norm_num [Trabajo_necesario, h2, h1, s2, s1, P2, P_condensacion, T_condensacion,
    Delta_T_cond, kelvin, testOracle]

theorem C1_cycle_invariants_witness :
    (buildResultados testOracle 25 4 (1/10)).state1.P =
        (buildResultados testOracle 25 4 (1/10)).state4.P ∧
      (buildResultados testOracle 25 4 (1/10)).state2.P =
        (buildResultados testOracle 25 4 (1/10)).state3.P ∧
      (buildResultados testOracle 25 4 (1/10)).state2.s =
        (buildResultados testOracle 25 4 (1/10)).state1.s ∧
      (buildResultados testOracle 25 4 (1/10)).state4.h =
        (buildResultados testOracle 25 4 (1/10)).state3.h :=
  C1_cycle_invariants testOracle 25 4 (1/10) _ testOracle_ok

/-- C2: for every successful solve, the returned COP metric equals the
returned heat-extraction rate divided by the returned compressor work rate
(both reported in kW; the 1000 cancels). -/
theorem C2_cop_is_ratio (cp : PropsOracle) (Ta Ti m : ℚ) (r : Resultados)
    (hok : simular_refrigerador cp Ta Ti m = Except.ok r) :
    r.scalar.COP = r.scalar.Calor_Extraido_kW / r.scalar.Trabajo_Compresor_kW := by
  obtain ⟨-, rfl⟩ := (simular_ok_iff cp Ta Ti m r).mp hok
  show COP cp Ta Ti m =
    Q_evap cp Ta Ti m / 1000 / (Trabajo_necesario cp Ta Ti m / 1000)
  rw [COP, div_div_div_cancel_right₀ (by norm_num : (1000 : ℚ) ≠ 0)]

theorem C2_cop_is_ratio_witness :
    (buildResultados testOracle 25 4 (1/10)).scalar.COP =
      (buildResultados testOracle 25 4 (1/10)).scalar.Calor_Extraido_kW /
        (buildResultados testOracle 25 4 (1/10)).scalar.Trabajo_Compresor_kW :=
  C2_cop_is_ratio testOracle 25 4 (1/10) _ testOracle_ok

/-- C3: for every successful solve, the compressor work rate (in W, i.e.
1000 times the reported kW figure) equals mass flow times (h2 - h1), and
the heat-extraction rate equals mass flow times (h1 - h4), with the
enthalpies taken from the returned StatePoints. -/
theorem C3_energy_balances (cp : PropsOracle) (Ta Ti m : ℚ) (r : Resultados)
    (hok : simular_refrigerador cp Ta Ti m = Except.ok r) :
    1000 * r.scalar.Trabajo_Compresor_kW = m * (r.state2.h - r.state1.h) ∧
      1000 * r.scalar.Calor_Extraido_kW = m * (r.state1.h - r.state4.h) := by
  obtain ⟨-, rfl⟩ := (simular_ok_iff cp Ta Ti m r).mp hok
  constructor
  · show 1000 * (Trabajo_necesario cp Ta Ti m / 1000) =
      m * (h2 cp Ta Ti - h1 cp Ti)
    rw [Trabajo_necesario]; ring
  · show 1000 * (Q_evap cp Ta Ti m / 1000) = m * (h1 cp Ti - h4 cp Ta)
    rw [Q_evap]; ring

theorem C3_energy_balances_witness :
    1000 * (buildResultados testOracle 25 4 (1/10)).scalar.Trabajo_Compresor_kW =
        (1/10) * ((buildResultados testOracle 25 4 (1/10)).state2.h -
          (buildResultados testOracle 25 4 (1/10)).state1.h) ∧
      1000 * (buildResultados testOracle 25 4 (1/10)).scalar.Calor_Extraido_kW =
        (1/10) * ((buildResultados testOracle 25 4 (1/10)).state1.h -
          (buildResultados testOracle 25 4 (1/10)).state4.h) :=
  C3_energy_balances testOracle 25 4 (1/10) _ testOracle_ok

/-- C4: for every successful solve, the reported temperature of state 2 is
the oracle's answer to (temperature from enthalpy = h2, pressure =
condensing pressure), and the discharge-temperature metric is that same
temperature in Celsius; no assumed superheat value is reported. -/
theorem C4_discharge_requeried (cp : PropsOracle) (Ta Ti m : ℚ) (r : Resultados)
    (hok : simular_refrigerador cp Ta Ti m = Except.ok r) :
    r.state2.T = cp.T_HP r.state2.h (P_condensacion cp Ta) ∧
      r.scalar.Temp_Descarga_C = r.state2.T - 273.15 := by
  obtain ⟨-, rfl⟩ := (simular_ok_iff cp Ta Ti m r).mp hok
  exact ⟨rfl, rfl⟩

theorem C4_discharge_requeried_witness :
    (buildResultados testOracle 25 4 (1/10)).state2.T =
        testOracle.T_HP (buildResultados testOracle 25 4 (1/10)).state2.h
          (P_condensacion testOracle 25) ∧
      (buildResultados testOracle 25 4 (1/10)).scalar.Temp_Descarga_C =
        (buildResultados testOracle 25 4 (1/10)).state2.T - 273.15 :=
  C4_discharge_requeried testOracle 25 4 (1/10) _ testOracle_ok

/-- C5: the condensing temperature used by the solver is the ambient
temperature in Kelvin plus the fixed 15 K approach delta, and the pressure
of states 2 and 3 is the oracle's saturation pressure at that condensing
temperature with quality 0. -/
theorem C5_condensing_pressure (cp : PropsOracle) (Ta Ti m : ℚ) (r : Resultados)
    (hok : simular_refrigerador cp Ta Ti m = Except.ok r) :
    T_condensacion Ta = kelvin Ta + 15 ∧
      r.state2.P = cp.P_TQ (T_condensacion Ta) 0 ∧
      r.state3.P = cp.P_TQ (T_condensacion Ta) 0 := by
  obtain ⟨-, rfl⟩ := (simular_ok_iff cp Ta Ti m r).mp hok
  exact ⟨rfl, rfl, rfl⟩

theorem C5_condensing_pressure_witness :
    T_condensacion 25 = kelvin 25 + 15 ∧
      (buildResultados testOracle 25 4 (1/10)).state2.P =
        testOracle.P_TQ (T_condensacion 25) 0 ∧
      (buildResultados testOracle 25 4 (1/10)).state3.P =
        testOracle.P_TQ (T_condensacion 25) 0 :=
  C5_condensing_pressure testOracle 25 4 (1/10) _ testOracle_ok

/-- C6: with temperatures and oracle fixed, doubling the mass flow rate
doubles both returned rates and leaves the four per-unit-mass enthalpies
in the returned states unchanged. -/
theorem C6_rates_linear_in_flow (cp : PropsOracle) (Ta Ti m : ℚ)
    (r r2 : Resultados)
    (hok : simular_refrigerador cp Ta Ti m = Except.ok r)
    (hok2 : simular_refrigerador cp Ta Ti (2 * m) = Except.ok r2) :
    r2.scalar.Trabajo_Compresor_kW = 2 * r.scalar.Trabajo_Compresor_kW ∧
      r2.scalar.Calor_Extraido_kW = 2 * r.scalar.Calor_Extraido_kW ∧
      r2.state1.h = r.state1.h ∧ r2.state2.h = r.state2.h ∧
      r2.state3.h = r.state3.h ∧ r2.state4.h = r.state4.h := by
  obtain ⟨-, rfl⟩ := (simular_ok_iff cp Ta Ti m r).mp hok
  obtain ⟨-, rfl⟩ := (simular_ok_iff cp Ta Ti (2 * m) r2).mp hok2
  refine ⟨?_, ?_, rfl, rfl, rfl, rfl⟩
  · show Trabajo_necesario cp Ta Ti (2 * m) / 1000 =
      2 * (Trabajo_necesario cp Ta Ti m / 1000)
    rw [Trabajo_necesario, Trabajo_necesario]; ring
  · show Q_evap cp Ta Ti (2 * m) / 1000 = 2 * (Q_evap cp Ta Ti m / 1000)
    rw [Q_evap, Q_evap]; ring

theorem C6_rates_linear_in_flow_witness :
    (buildResultados testOracle 25 4 (2 * (1/10))).scalar.Trabajo_Compresor_kW =
        2 * (buildResultados testOracle 25 4 (1/10)).scalar.Trabajo_Compresor_kW ∧
      (buildResultados testOracle 25 4 (2 * (1/10))).scalar.Calor_Extraido_kW =
        2 * (buildResultados testOracle 25 4 (1/10)).scalar.Calor_Extraido_kW ∧
      (buildResultados testOracle 25 4 (2 * (1/10))).state1.h =
        (buildResultados testOracle 25 4 (1/10)).state1.h ∧
      (buildResultados testOracle 25 4 (2 * (1/10))).state2.h =
        (buildResultados testOracle 25 4 (1/10)).state2.h ∧
      (buildResultados testOracle 25 4 (2 * (1/10))).state3.h =
        (buildResultados testOracle 25 4 (1/10)).state3.h ∧
      (buildResultados testOracle 25 4 (2 * (1/10))).state4.h =
        (buildResultados testOracle 25 4 (1/10)).state4.h :=
  C6_rates_linear_in_flow testOracle 25 4 (1/10) _ _ testOracle_ok testOracle_ok_double

/-- C7: with mass flow rate 0 the computed compressor work and
heat-extraction rates are both zero, and the solve surfaces the 0/0 COP as
an explicit error (Python raises ZeroDivisionError) instead of returning a
result with COP = 0. -/
theorem C7_zero_flow_errors (cp : PropsOracle) (Ta Ti : ℚ) :
    Trabajo_necesario cp Ta Ti 0 = 0 ∧ Q_evap cp Ta Ti 0 = 0 ∧
      simular_refrigerador cp Ta Ti 0 =
        Except.error "ZeroDivisionError: float division by zero" := by
  refine ⟨by rw [Trabajo_necesario]; ring, by rw [Q_evap]; ring, ?_⟩
  rw [simular_refrigerador, if_pos (by rw [Trabajo_necesario]; ring)]

/-- C8: when the compressor work is negative (nonzero) and all oracle
lookups succeed, the solve performs no special-casing or clamping: it
returns a result carrying the computed (negative) COP = Q_evap / work. -/
theorem C8_no_clamping (cp : PropsOracle) (Ta Ti m : ℚ)
    (hneg : Trabajo_necesario cp Ta Ti m < 0) :
    simular_refrigerador cp Ta Ti m =
        Except.ok (buildResultados cp Ta Ti m) ∧
      (buildResultados cp Ta Ti m).scalar.COP =
        Q_evap cp Ta Ti m / Trabajo_necesario cp Ta Ti m :=
  ⟨(simular_ok_iff cp Ta Ti m _).mpr ⟨ne_of_lt hneg, rfl⟩, rfl⟩

theorem C8_no_clamping_witness :
    (simular_refrigerador negOracle 25 4 (1/10) =
        Except.ok (buildResultados negOracle 25 4 (1/10))) ∧
      (buildResultados negOracle 25 4 (1/10)).scalar.COP =
        Q_evap negOracle 25 4 (1/10) / Trabajo_necesario negOracle 25 4 (1/10) :=
  C8_no_clamping negOracle 25 4 (1/10) (by rw [negOracle_work]; norm_num)

/-- C9: for every successful solve the reported temperature of state 4
equals that of state 1 and both are the interior temperature converted to
Kelvin — independent of every oracle query, so state 4's temperature is
never obtained from an (evaporating pressure, h4) lookup. -/
theorem C9_state4_temperature (cp : PropsOracle) (Ta Ti m : ℚ) (r : Resultados)
    (hok : simular_refrigerador cp Ta Ti m = Except.ok r) :
    r.state4.T = r.state1.T ∧ r.state4.T = Ti + 273.15 := by
  obtain ⟨-, rfl⟩ := (simular_ok_iff cp Ta Ti m r).mp hok
  exact ⟨rfl, rfl⟩

theorem C9_state4_temperature_witness :
    (buildResultados testOracle 25 4 (1/10)).state4.T =
        (buildResultados testOracle 25 4 (1/10)).state1.T ∧
      (buildResultados testOracle 25 4 (1/10)).state4.T = 4 + 273.15 :=
  C9_state4_temperature testOracle 25 4 (1/10) _ testOracle_ok

/-- C10: for nonzero mass flow, the returned COP equals
(h1 - h4) / (h2 - h1) of the returned states — the mass flow cancels, so
COP is independent of it. -/
theorem C10_cop_flow_independent (cp : PropsOracle) (Ta Ti m : ℚ)
    (r : Resultados) (hm : m ≠ 0)
    (hok : simular_refrigerador cp Ta Ti m = Except.ok r) :
    r.scalar.COP = (r.state1.h - r.state4.h) / (r.state2.h - r.state1.h) := by
  obtain ⟨-, rfl⟩ := (simular_ok_iff cp Ta Ti m r).mp hok
  show COP cp Ta Ti m = (h1 cp Ti - h4 cp Ta) / (h2 cp Ta Ti - h1 cp Ti)
  rw [COP, Q_evap, Trabajo_necesario, mul_div_mul_left _ _ hm]

theorem C10_cop_flow_independent_witness :
    ((1 : ℚ)/10 ≠ 0) ∧
      (buildResultados testOracle 25 4 (1/10)).scalar.COP =
        ((buildResultados testOracle 25 4 (1/10)).state1.h -
            (buildResultados testOracle 25 4 (1/10)).state4.h) /
          ((buildResultados testOracle 25 4 (1/10)).state2.h -
            (buildResultados testOracle 25 4 (1/10)).state1.h) :=
  ⟨by norm_num,
    C10_cop_flow_independent testOracle 25 4 (1/10) _ (by norm_num) testOracle_ok⟩

end Prueba
